

import Mathlib

/-!
Verification of the website metadata extraction and content-scraping pipeline
of the Starr CMS tool (src/app.py).

Python strings are modelled as `List Char` (Python `len` counts code points,
as does `List.length`).  The regex searches of the source are compiled, per
pattern, into deterministic character-level scanners with Python `re.search`
semantics (leftmost match; greedy/lazy quantifier behaviour reproduced where
the pattern requires it).  BeautifulSoup calls (an external library) are
abstracted: the parsed facts the source reads off the soup (anchor tags with
their rendered text, the theme-color meta content, style blocks and
attributes, stylesheet link hrefs, the cleaned body text) are inputs to the
model, while everything the source computes from them is embedded faithfully.
Outbound HTTP is modelled by oracle functions given as inputs.
-/

set_option maxRecDepth 4000

/-- Python strings as lists of characters. -/
abbrev Str := List Char

/-- The apostrophe character. -/
def apos : Char := Char.ofNat 39

/-- Python truthiness of an optional string (`not d.get(key)`). -/
def pyFalsy : Option Str → Bool
  | none => true
  | some v => v.isEmpty

/-- Python `\s` / `str.strip()` whitespace (ASCII). -/
def isPySpace (c : Char) : Bool :=
  c = ' ' || c = '\t' || c = '\n' || c = '\r' || c = Char.ofNat 11 || c = Char.ofNat 12

/-- Hex digit test, `[0-9a-fA-F]`. -/
def isHexDig (c : Char) : Bool :=
  ('0' ≤ c && c ≤ '9') || ('a' ≤ c && c ≤ 'f') || ('A' ≤ c && c ≤ 'F')

/-- Value of a hex digit. -/
def hexValc (c : Char) : Nat :=
  if '0' ≤ c && c ≤ '9' then c.toNat - 48
  else if 'a' ≤ c && c ≤ 'f' then c.toNat - 87
  else if 'A' ≤ c && c ≤ 'F' then c.toNat - 55
  else 0

/-- Regex word character `\w` (ASCII). -/
def isWordChar (c : Char) : Bool :=
  c.isAlpha || c.isDigit || c = '_'

/-- A `\b` boundary after a character-class run: the next character (if
any) is not a word character. -/
def boundaryOk : Str → Bool
  | [] => true
  | a :: _ => !isWordChar a

/-- A single or double quote (the `["\x27]` classes of the source's regexes). -/
def isQuote (c : Char) : Bool := c = '"' || c = apos

/-- Python `str.lower()` (ASCII). -/
def lowerStr (s : Str) : Str := s.map Char.toLower

/-- Python `str.strip()`. -/
def pyStrip (s : Str) : Str :=
  ((s.dropWhile isPySpace).reverse.dropWhile isPySpace).reverse

/-- Python `str.rstrip(c)` for one character. -/
def pyRstrip (ch : Char) (s : Str) : Str :=
  (s.reverse.dropWhile (fun c => c = ch)).reverse

/-- Python `str.strip(c)` for one character. -/
def pyStripChar (ch : Char) (s : Str) : Str :=
  ((s.dropWhile (fun c => c = ch)).reverse.dropWhile (fun c => c = ch)).reverse

/-- Python's `in` operator on strings: `pat` occurs as a contiguous
substring of the second argument. -/
def listInfix (pat : Str) : Str → Bool
  | [] => pat.isEmpty
  | c :: rest => pat.isPrefixOf (c :: rest) || listInfix pat rest

/-- Drop a case-insensitive literal (given lowercased) from the front,
returning the rest, or `none` if the text does not start with it. -/
def dropCI : Str → Str → Option Str
  | [], s => some s
  | _ :: _, [] => none
  | p :: ps, c :: cs => if c.toLower = p then dropCI ps cs else none

/-- Drop a case-sensitive literal from the front. -/
def dropLit : Str → Str → Option Str
  | [], s => some s
  | _ :: _, [] => none
  | p :: ps, c :: cs => if c = p then dropLit ps cs else none

/-- Python `sep.join(parts)`. -/
def pyJoin (sep : Str) : List Str → Str
  | [] => []
  | [x] => x
  | x :: y :: rest => x ++ sep ++ pyJoin sep (y :: rest)

/-- First `some` value of `f` over a list (regex alternation order). -/
def firstSome {α β : Type} (f : α → Option β) : List α → Option β
  | [] => none
  | a :: as => match f a with
    | some b => some b
    | none => firstSome f as

/-- `re.search` driver: try the match-at-position function at every position,
left to right, returning the first (leftmost) match. -/
def searchPos {α : Type} (m : Str → Option α) : Str → Option α
  | [] => none
  | c :: rest => match m (c :: rest) with
    | some a => some a
    | none => searchPos m rest

/-- Splits of a greedy character-class run, longest prefix first, each paired
with the remaining text (run remainder re-attached): the backtracking order of
a greedy `class*` followed by further pattern material. -/
def splitsDesc (run rest : Str) : List (Str × Str) :=
  (List.range (run.length + 1)).reverse.map (fun k => (run.take k, run.drop k ++ rest))

/-- Exactly `n` regex `\d` digits; returns the digits and the rest. -/
def digitsN : Nat → Str → Option (Str × Str)
  | 0, s => some ([], s)
  | _ + 1, [] => none
  | n + 1, c :: s =>
    if c.isDigit then
      match digitsN n s with
      | some (d, r) => some (c :: d, r)
      | none => none
    else none

/-- Greedy optional single character (`x?`): try consuming first, then the
continuation without consuming. -/
def optTok (p : Char → Bool) (k : Str → Option Str) : Str → Option Str
  | [] => k []
  | c :: rest =>
    if p c then
      match k rest with
      | some m => some (c :: m)
      | none => k (c :: rest)
    else k (c :: rest)

/-- Regex separator class `[\s.-]` of the phone patterns. -/
def isSep (c : Char) : Bool := isPySpace c || c = '.' || c = '-'

/-- Match the phone shape `\(?\d{3}\)?[\s.-]?\d{3}[\s.-]?\d{4}` at the start
of the text, returning the matched text (the capture group). -/
def phoneShapeAt (s : Str) : Option Str :=
  optTok (fun c => c = '(') (fun t =>
    match digitsN 3 t with
    | none => none
    | some (d1, t1) =>
      match optTok (fun c => c = ')') (fun u =>
        optTok isSep (fun v =>
          match digitsN 3 v with
          | none => none
          | some (d2, v1) =>
            match optTok isSep (fun w =>
              match digitsN 4 w with
              | none => none
              | some (d3, _) => some d3) v1 with
            | some tl => some (d2 ++ tl)
            | none => none) u) t1 with
      | some tl => some (d1 ++ tl)
      | none => none) s

/-- Match `href=["\x27]tel:([^"\x27]+)["\x27]` (IGNORECASE) at the start of
the text, returning the capture group. -/
def telAt (s : Str) : Option Str :=
  match dropCI (("href=").toList) s with
  | none => none
  | some s1 =>
    match s1 with
    | [] => none
    | q :: s2 =>
      if isQuote q then
        match dropCI (("tel:").toList) s2 with
        | none => none
        | some s3 =>
          let cap := s3.takeWhile (fun c => !isQuote c)
          match cap, s3.drop cap.length with
          | [], _ => none
          | _, [] => none
          | _, _ :: _ => some cap
      else none

/-- `re.search` for the `tel:` href pattern (src/app.py line 543). -/
def telSearch : Str → Option Str := searchPos telAt

/-- Lazy `[^"]*?` skip inside a quoted attribute value, then the phone shape:
try the phone pattern before each skipped character, never skipping a `"`. -/
def lazyPhoneInQuote : Str → Option Str
  | [] => none
  | c :: rest =>
    match phoneShapeAt (c :: rest) with
    | some m => some m
    | none => if c = '"' then none else lazyPhoneInQuote rest

/-- Match `(?:aria-label|title)="[^"]*?(phone-shape)` at the start of the
text (case sensitive, as in the source). -/
def ariaAt (s : Str) : Option Str :=
  match dropLit (("aria-label=\"").toList) s with
  | some r => lazyPhoneInQuote r
  | none =>
    match dropLit (("title=\"").toList) s with
    | some r => lazyPhoneInQuote r
    | none => none

/-- `re.search` for the aria-label/title phone pattern (src/app.py line 552). -/
def ariaSearch : Str → Option Str := searchPos ariaAt

/-- Lazy `.*?` (DOTALL) skip, then the phone shape. -/
def lazyPhoneAnywhere : Str → Option Str
  | [] => none
  | c :: rest =>
    match phoneShapeAt (c :: rest) with
    | some m => some m
    | none => lazyPhoneAnywhere rest

/-- Match `PHONE:.*?(phone-shape)` (IGNORECASE, DOTALL) at the start. -/
def phoneLabelAt (s : Str) : Option Str :=
  match dropCI (("phone:").toList) s with
  | none => none
  | some r => lazyPhoneAnywhere r

/-- `re.search` for the `PHONE:` label pattern (src/app.py line 559). -/
def phoneLabelSearch : Str → Option Str := searchPos phoneLabelAt

/-- `re.sub(r'[^\d]', '', x)`: keep only digits. -/
def stripToDigits (s : Str) : Str := s.filter Char.isDigit

/-- `f"({raw[:3]}) {raw[3:6]}-{raw[6:]}"`. -/
def formatPhone (raw : Str) : Str :=
  '(' :: raw.take 3 ++ (") ").toList ++ (raw.drop 3).take 3 ++ '-' :: raw.drop 6

/-- Digit normalisation of a captured `tel:` value (src/app.py lines 545-547):
strip to digits, drop a leading country-code `1` from an 11-digit result. -/
def telAdjust (t : Str) : Str :=
  let raw := stripToDigits t
  if raw.length = 11 ∧ raw.head? = some '1' then raw.drop 1 else raw

/-- Tier-1 phone extraction from a captured `tel:` value (src/app.py
lines 544-549): emit the formatted number only when exactly 10 digits
remain. -/
def telPhone (t : Str) : Str :=
  if (telAdjust t).length = 10 then formatPhone (telAdjust t) else []

/-- Tier 1 of the phone extractor: the `tel:` href (src/app.py
lines 543-549). -/
def telStage (html : Str) : Str :=
  match telSearch html with
  | some t => telPhone t
  | none => []

/-- Tier 2 of the phone extractor: aria-label/title (src/app.py
lines 551-556). -/
def ariaStage (html : Str) : Str :=
  match ariaSearch html with
  | some m =>
    let raw := stripToDigits m
    if raw.length = 10 then formatPhone raw else []
  | none => []

/-- Tier 3 of the phone extractor: the `PHONE:` label (src/app.py
lines 557-563). -/
def phoneLabelStage (html : Str) : Str :=
  match phoneLabelSearch html with
  | some m =>
    let raw := stripToDigits m
    if raw.length = 10 then formatPhone raw else []
  | none => []

/-- The three-tier phone extractor of `_detect_site_metadata`
(src/app.py lines 541-563): each later tier runs only when the earlier
ones produced nothing. -/
def detectPhone (html : Str) : Str :=
  let p1 := telStage html
  if p1 ≠ [] then p1
  else
    let p2 := ariaStage html
    if p2 ≠ [] then p2
    else phoneLabelStage html

/-- Match `href=["\x27]https?://(?:www\.)?{domain}([^"\x27]+)["\x27]`
(IGNORECASE) at the start of the text, returning the captured slug.
`domain` is the lowercased literal such as `facebook.com/`. -/
def socialAt (domain : Str) (s : Str) : Option Str :=
  match dropCI (("href=").toList) s with
  | none => none
  | some s1 =>
    match s1 with
    | [] => none
    | q :: s2 =>
      if isQuote q then
        match dropCI (("http").toList) s2 with
        | none => none
        | some s3 =>
          let sBranches : List Str := match s3 with
            | c :: r => if c.toLower = 's' then [r, s3] else [s3]
            | [] => [s3]
          firstSome (fun s4 =>
            match dropCI (("://").toList) s4 with
            | none => none
            | some s5 =>
              let wBranches : List Str := match dropCI (("www.").toList) s5 with
                | some r => [r, s5]
                | none => [s5]
              firstSome (fun s6 =>
                match dropCI domain s6 with
                | none => none
                | some s7 =>
                  let cap := s7.takeWhile (fun c => !isQuote c)
                  match cap, s7.drop cap.length with
                  | [], _ => none
                  | _, [] => none
                  | _, _ :: _ => some cap) wBranches) sBranches
      else none

/-- Excluded corporate Facebook handles (src/app.py line 532). -/
def fbExcluded : List Str :=
  [("starrrestaurants").toList, ("starr-restaurants").toList, ("starr.restaurants").toList]

/-- Excluded corporate Instagram handles (src/app.py line 538). -/
def igExcluded : List Str :=
  [("starrrestaurants").toList, ("starr_restaurants").toList, ("starr.restaurants").toList]

/-- Facebook URL field of `_detect_site_metadata` (src/app.py lines 529-533). -/
def detect_facebook_url (html : Str) : Str :=
  match searchPos (socialAt (("facebook.com/").toList)) html with
  | none => []
  | some slugRaw =>
    let slug := pyRstrip '/' slugRaw
    if lowerStr slug ∈ fbExcluded then []
    else ("https://www.facebook.com/").toList ++ slug

/-- Instagram URL field of `_detect_site_metadata` (src/app.py lines 535-539). -/
def detect_instagram_url (html : Str) : Str :=
  match searchPos (socialAt (("instagram.com/").toList)) html with
  | none => []
  | some slugRaw =>
    let slug := pyRstrip '/' slugRaw
    if lowerStr slug ∈ igExcluded then []
    else ("https://www.instagram.com/").toList ++ slug

/-- Regex class `[a-z0-9-]` under IGNORECASE. -/
def isResyChar (c : Char) : Bool :=
  ('a' ≤ c.toLower && c.toLower ≤ 'z') || c.isDigit || c = '-'

/-- Match `https?://resy\.com/cities/[a-z0-9-]+/venues/[a-z0-9-]+`
(IGNORECASE) at the start; returns the whole matched slice (group 0,
original case). -/
def resyLongAt (s : Str) : Option Str :=
  match dropCI (("http").toList) s with
  | none => none
  | some s1 =>
    let sBranches : List Str := match s1 with
      | c :: r => if c.toLower = 's' then [r, s1] else [s1]
      | [] => [s1]
    firstSome (fun s2 =>
      match dropCI (("://resy.com/cities/").toList) s2 with
      | none => none
      | some s3 =>
        let run1 := s3.takeWhile isResyChar
        if run1.isEmpty then none
        else
          match dropCI (("/venues/").toList) (s3.drop run1.length) with
          | none => none
          | some s4 =>
            let run2 := s4.takeWhile isResyChar
            if run2.isEmpty then none
            else some (s.take (s.length - (s4.drop run2.length).length))) sBranches

/-- Match `resy\.com/cities/([a-z0-9-]+)/([a-z0-9-]+)` (IGNORECASE) at the
start; returns the two captured groups. -/
def resyShortAt (s : Str) : Option (Str × Str) :=
  match dropCI (("resy.com/cities/").toList) s with
  | none => none
  | some s1 =>
    let g1 := s1.takeWhile isResyChar
    if g1.isEmpty then none
    else
      match s1.drop g1.length with
      | '/' :: s2 =>
        let g2 := s2.takeWhile isResyChar
        if g2.isEmpty then none else some (g1, g2)
      | _ => none

/-- Match `opentable\.com[^"\x27]*[?&]rid=\s*(\d+)` (IGNORECASE) at the
start; returns the captured digits.  The greedy `[^"\x27]*` backtracks from
the longest prefix, so the last `?`/`&` followed by `rid=` wins. -/
def otRidAt (s : Str) : Option Str :=
  match dropCI (("opentable.com").toList) s with
  | none => none
  | some s1 =>
    let run := s1.takeWhile (fun c => !isQuote c)
    firstSome (fun pr =>
      match pr.2 with
      | c :: s2 =>
        if c = '?' || c = '&' then
          match dropCI (("rid=").toList) s2 with
          | none => none
          | some s3 =>
            let ds := (s3.dropWhile isPySpace).takeWhile Char.isDigit
            if ds.isEmpty then none else some ds
        else none
      | [] => none) (splitsDesc run (s1.drop run.length))

/-- The booking-platform fields of `_detect_site_metadata`
(src/app.py lines 479-493): returns `(booking, opentable_rid, resy_url)`. -/
def bookingFields (html : Str) : Str × Str × Str :=
  let hl := lowerStr html
  if listInfix (("widgets.resy.com").toList) hl || listInfix (("resywidget").toList) hl
      || listInfix (("resy.com/cities/").toList) hl then
    match searchPos resyLongAt html with
    | some m => (("Resy").toList, [], m)
    | none =>
      match searchPos resyShortAt html with
      | some (g1, g2) =>
        (("Resy").toList, [], ("https://resy.com/cities/").toList ++ g1 ++ '/' :: g2)
      | none => (("Resy").toList, [], [])
  else if listInfix (("opentable.com/widget").toList) hl
      || listInfix (("opentable.com/r/").toList) hl
      || listInfix (("opentable.com/restref").toList) hl
      || listInfix (("ot-dtp-picker").toList) hl then
    match searchPos otRidAt html with
    | some rid => (("OpenTable").toList, rid, [])
    | none => (("OpenTable").toList, [], [])
  else ([], [], [])

/-- Match `lead_form_id=(\d+)` at the start; returns the digits. -/
def tsAt (s : Str) : Option Str :=
  match dropLit (("lead_form_id=").toList) s with
  | none => none
  | some s1 =>
    let ds := s1.takeWhile Char.isDigit
    if ds.isEmpty then none else some ds

/-- Tripleseat form-id field (src/app.py lines 496-498). -/
def tripleseatField (html : Str) : Str :=
  if listInfix (("tripleseat.com").toList) (lowerStr html) then
    match searchPos tsAt html with
    | some ds => ds
    | none => []
  else []

/-- An anchor tag as read off the parsed HTML: its href and the two text
renderings the source requests from BeautifulSoup (`get_text(strip=True)`
and `get_text(separator=', ')`). -/
structure Anchor where
  href : Str
  textStripped : Str
  textCommaSep : Str
deriving DecidableEq

/-- Mailing-list link keywords (src/app.py line 503). -/
def mailKeywords : List Str :=
  [("mailing list").toList, ("subscribe").toList, ("newsletter").toList, ("sign up for").toList]

/-- The anchor-text pass for the mailing-list URL (src/app.py lines 504-510):
first anchor whose visible text contains a keyword and whose stripped href
starts with `http`; the loop keeps going otherwise. -/
def mailingFromAnchors : List Anchor → Str
  | [] => []
  | a :: rest =>
    if mailKeywords.any (fun kw => listInfix kw (lowerStr a.textStripped)) then
      let href := pyStrip a.href
      if href ≠ [] ∧ (("http").toList).isPrefixOf href then pyRstrip '/' href
      else mailingFromAnchors rest
    else mailingFromAnchors rest

/-- Regex class `[^\s"\x27<>]` of the URL-tail patterns. -/
def isUrlTail (c : Char) : Bool :=
  !(isPySpace c || c = '"' || c = apos || c = '<' || c = '>')

/-- Regex class `[a-z0-9.-]` under IGNORECASE. -/
def isDomChar (c : Char) : Bool :=
  ('a' ≤ c.toLower && c.toLower ≤ 'z') || c.isDigit || c = '.' || c = '-'

/-- One branch `[a-z0-9.-]+{mid}[^\s"\x27<>]*` of the newsletter-platform
regex: greedy domain run backtracking from the longest prefix, then the
literal `mid`, then the greedy URL tail.  Returns the remaining text after
the match. -/
def mailBranch (mid : Str) (s : Str) : Option Str :=
  let run := s.takeWhile isDomChar
  firstSome (fun pr =>
    if pr.1.isEmpty then none
    else
      match dropCI mid pr.2 with
      | none => none
      | some s2 => some (s2.dropWhile isUrlTail)) (splitsDesc run (s.drop run.length))

/-- Match the newsletter-platform URL regex (src/app.py lines 513-516) at the
start; returns the whole matched slice (group 0). -/
def mailRegexAt (s : Str) : Option Str :=
  match dropCI (("http").toList) s with
  | none => none
  | some s1 =>
    let sBranches : List Str := match s1 with
      | c :: r => if c.toLower = 's' then [r, s1] else [s1]
      | [] => [s1]
    firstSome (fun s2 =>
      match dropCI (("://").toList) s2 with
      | none => none
      | some s3 =>
        let rest? :=
          match mailBranch ((".e2ma.net/").toList) s3 with
          | some r => some r
          | none =>
            match mailBranch ((".list-manage.com/subscribe").toList) s3 with
            | some r => some r
            | none =>
              match mailBranch ((".createsend.com/").toList) s3 with
              | some r => some r
              | none =>
                match dropCI (("mailchi.mp/").toList) s3 with
                | some r => some (r.dropWhile isUrlTail)
                | none => none
        match rest? with
        | some rest => some (s.take (s.length - rest.length))
        | none => none) sBranches

/-- The mailing-list field (src/app.py lines 500-518): anchor-text pass
first, then the platform-URL regex fallback. -/
def mailingListField (html : Str) (anchors : List Anchor) : Str :=
  let m1 := mailingFromAnchors anchors
  if m1 ≠ [] then m1
  else
    match searchPos mailRegexAt html with
    | some m => pyRstrip '/' m
    | none => []

/-- Match the order-online URL inside
`href=["\x27]?(https?://order\.online/[^\s"\x27<>]+)["\x27]?` (IGNORECASE),
given the text just after the optional quote; returns group 1. -/
def orderUrlAt (s2 : Str) : Option Str :=
  match dropCI (("http").toList) s2 with
  | none => none
  | some s3 =>
    let sBranches : List Str := match s3 with
      | c :: r => if c.toLower = 's' then [r, s3] else [s3]
      | [] => [s3]
    firstSome (fun s4 =>
      match dropCI (("://order.online/").toList) s4 with
      | none => none
      | some s5 =>
        let tl := s5.takeWhile isUrlTail
        if tl.isEmpty then none
        else some (s2.take (s2.length - (s5.drop tl.length).length))) sBranches

/-- Match the full order-online pattern (src/app.py lines 521-524) at the
start of the text. -/
def orderAt (s : Str) : Option Str :=
  match dropCI (("href=").toList) s with
  | none => none
  | some s1 =>
    match s1 with
    | c :: r =>
      if isQuote c then
        match orderUrlAt r with
        | some m => some m
        | none => orderUrlAt s1
      else orderUrlAt s1
    | [] => none

/-- Order-online field (src/app.py lines 520-526). -/
def orderOnlineField (html : Str) : Str :=
  match searchPos orderAt html with
  | some m => pyRstrip '/' m
  | none => []

/-- Regex class `[a-z0-9._-]` under IGNORECASE. -/
def isEmailChar (c : Char) : Bool :=
  ('a' ≤ c.toLower && c.toLower ≤ 'z') || c.isDigit || c = '.' || c = '_' || c = '-'

/-- The email local-part suffix keywords, in the alternation order of the
pattern `(?:info|events|marketing|press)`. -/
def emailKinds : List Str :=
  [("info").toList, ("events").toList, ("marketing").toList, ("press").toList]

/-- Match `([a-z0-9._-]+\.(?:info|events|marketing|press)@starr-restaurants\.com)`
(IGNORECASE) at the start; returns the matched email (original case) and the
remaining text.  The greedy local-part run backtracks from the longest
prefix; for each split the alternation is tried in order. -/
def emailAt (s : Str) : Option (Str × Str) :=
  let run := s.takeWhile isEmailChar
  if run.isEmpty then none
  else
    firstSome (fun pr =>
      if pr.1.isEmpty then none
      else
        firstSome (fun kind =>
          match dropCI ('.' :: kind) pr.2 with
          | none => none
          | some s2 =>
            match dropCI (("@starr-restaurants.com").toList) s2 with
            | none => none
            | some s3 => some (s.take (s.length - s3.length), s3)) emailKinds)
      (splitsDesc run (s.drop run.length))

/-- `re.findall` driver for the email pattern: leftmost matches,
non-overlapping, continuing after each match. -/
def emailFindAllAux : Nat → Str → List Str
  | 0, _ => []
  | _ + 1, [] => []
  | fuel + 1, c :: rest =>
    match emailAt (c :: rest) with
    | some (m, r) => m :: emailFindAllAux fuel r
    | none => emailFindAllAux fuel rest

/-- All Starr-corporate emails in the text (src/app.py line 566). -/
def emailFindAll (html : Str) : List Str := emailFindAllAux html.length html

/-- Bucketing of found emails (src/app.py lines 567-576): first match per
bucket wins, tested in the if/elif order of the source.  Returns
`(email_general, email_events, email_marketing, email_press)`. -/
def emailBuckets (emails : List Str) : Str × Str × Str × Str :=
  emails.foldl (fun acc email =>
    let lower := lowerStr email
    if listInfix ((".info@").toList) lower ∧ acc.1 = [] then
      (email, acc.2.1, acc.2.2.1, acc.2.2.2)
    else if listInfix ((".events@").toList) lower ∧ acc.2.1 = [] then
      (acc.1, email, acc.2.2.1, acc.2.2.2)
    else if listInfix ((".marketing@").toList) lower ∧ acc.2.2.1 = [] then
      (acc.1, acc.2.1, email, acc.2.2.2)
    else if listInfix ((".press@").toList) lower ∧ acc.2.2.2 = [] then
      (acc.1, acc.2.1, acc.2.2.1, email)
    else acc) ([], [], [], [])

/-- Address and Google-Maps fields (src/app.py lines 578-585): the first
anchor whose href matches `google\.com/maps/place/` (IGNORECASE, searched
anywhere in the href); returns `(address, google_maps_url)`. -/
def mapsFields (anchors : List Anchor) : Str × Str :=
  match anchors.find? (fun a => listInfix (("google.com/maps/place/").toList) (lowerStr a.href)) with
  | none => ([], [])
  | some a =>
    let addr := pyStrip a.textCommaSep
    (if addr ≠ [] then addr else [], a.href)

/-- `_detect_site_metadata` (src/app.py lines 458-587).  The raw decoded
HTML is `html`; `anchors` is the parsed anchor list the source reads from
BeautifulSoup.  Returns the detected map as an association list in the
source's key-insertion order. -/
def detect_site_metadata (html : Str) (anchors : List Anchor) : List (Str × Str) :=
  let bk := bookingFields html
  let ts := tripleseatField html
  let ml := mailingListField html anchors
  let oo := orderOnlineField html
  let fb := detect_facebook_url html
  let ig := detect_instagram_url html
  let ph := detectPhone html
  let em := emailBuckets (emailFindAll html)
  let mp := mapsFields anchors
  [(("booking").toList, bk.1),
   (("opentable_rid").toList, bk.2.1),
   (("tripleseat_form_id").toList, ts),
   (("resy_url").toList, bk.2.2),
   (("mailing_list_url").toList, ml),
   (("facebook_url").toList, fb),
   (("instagram_url").toList, ig),
   (("phone").toList, ph),
   (("email_general").toList, em.1),
   (("email_events").toList, em.2.1),
   (("email_marketing").toList, em.2.2.1),
   (("email_press").toList, em.2.2.2),
   (("address").toList, mp.1),
   (("google_maps_url").toList, mp.2),
   (("order_online_url").toList, oo)]

/-- The facts `_extract_primary_color` reads from the parsed home page:
the `theme-color` meta content (if such a meta tag exists), the strings of
`<style>` blocks, the values of `style=` attributes (both in document
order), and the hrefs of `<link rel="stylesheet">` tags (`''` when the
attribute is missing, as in `link.get('href', '')`). -/
structure SoupInfo where
  themeColorContent : Option Str
  styleBlocks : List Str
  styleAttrs : List Str
  stylesheetHrefs : List Str

/-- Validation `re.match(r'^#[0-9a-fA-F]{3,8}$', val)` of a meta
theme-color value. -/
def hexColorFull (v : Str) : Bool :=
  match v with
  | '#' :: ds => ds.all isHexDig && decide (3 ≤ ds.length) && decide (ds.length ≤ 8)
  | _ => false

/-- The guard of step 1 of `_extract_primary_color` (src/app.py
lines 372-376): a theme-color meta exists, its content is truthy, and the
stripped content is well-formed hex. -/
def themeColorHit (soup : SoupInfo) : Bool :=
  match soup.themeColorContent with
  | some content => !content.isEmpty && hexColorFull (pyStrip content)
  | none => false

/-- The value returned by step 1 when the guard holds: `val[:7]`. -/
def themeColorVal (soup : SoupInfo) : Str :=
  match soup.themeColorContent with
  | some content => (pyStrip content).take 7
  | none => []

/-- `_normalize_hex` (src/app.py lines 379-383). -/
def normalizeHex (h : Str) : Str :=
  match h with
  | [a, b, c] => lowerStr [a, a, b, b, c, c]
  | _ => lowerStr h

/-- `_is_neutral` (src/app.py lines 385-387) on a 6-hex-digit string. -/
def isNeutral (h : Str) : Bool :=
  match h with
  | [h1, h2, h3, h4, h5, h6] =>
    let r := hexValc h1 * 16 + hexValc h2
    let g := hexValc h3 * 16 + hexValc h4
    let b := hexValc h5 * 16 + hexValc h6
    decide (max r (max g b) - min r (min g b) < 30)
  | _ => false

/-- `re.findall(r'#([0-9a-fA-F]{n})\b', css)` for `n` = 3 or 6:
at each `#`, the run of hex digits must have length exactly `n` and be
followed by a non-word character (or the end); matches are non-overlapping,
scanning continuing after each match. -/
def hexRunsAux (exact : Nat) : Nat → Str → List Str
  | 0, _ => []
  | _ + 1, [] => []
  | fuel + 1, c :: rest =>
    if c = '#' then
      let run := rest.takeWhile isHexDig
      let after := rest.drop run.length
      if run.length = exact && boundaryOk after then
        run :: hexRunsAux exact fuel after
      else hexRunsAux exact fuel rest
    else hexRunsAux exact fuel rest

/-- All `n`-digit hex colors in a CSS text. -/
def hexRuns (exact : Nat) (css : Str) : List Str := hexRunsAux exact css.length css

/-- `_extract_colors` (src/app.py lines 389-393): 6-digit finds, then
3-digit finds, normalized, neutrals discarded. -/
def extractColors (css : Str) : List Str :=
  ((hexRuns 6 css ++ hexRuns 3 css).map normalizeHex).filter (fun c => !isNeutral c)

/-- Name characters `[a-zA-Z0-9_-]` of the CSS custom-property pattern. -/
def isNameChar (c : Char) : Bool := c.isAlpha || c.isDigit || c = '_' || c = '-'

/-- The keywords of the custom-property name pattern. -/
def varKeywords : List Str :=
  [("primary").toList, ("brand").toList, ("accent").toList, ("main").toList]

/-- Match the custom-property pattern
`--[a-zA-Z0-9_-]*(?:primary|brand|accent|main)[a-zA-Z0-9_-]*\s*:\s*(#[0-9a-fA-F]{3,8})\b`
(IGNORECASE) at the start of the text; returns the captured hex value.
Since the name classes saturate, the name part consumes exactly the maximal
name-character run, which must contain one of the keywords; the trailing
`\b` after the greedy 3-8 digit run admits a match only when the full hex
run has length 3-8 and is followed by a non-word character. -/
def varAt (s : Str) : Option Str :=
  match s with
  | '-' :: '-' :: rest =>
    let run := rest.takeWhile isNameChar
    if varKeywords.any (fun kw => listInfix kw (lowerStr run)) then
      match (rest.drop run.length).dropWhile isPySpace with
      | ':' :: s3 =>
        match s3.dropWhile isPySpace with
        | '#' :: s5 =>
          let hrun := s5.takeWhile isHexDig
          let after := s5.drop hrun.length
          if decide (3 ≤ hrun.length) && decide (hrun.length ≤ 8) && boundaryOk after then
            some ('#' :: hrun)
          else none
        | _ => none
      | _ => none
    else none
  | _ => none

/-- `re.search` for the custom-property pattern (src/app.py lines 405-409). -/
def varSearch : Str → Option Str := searchPos varAt

/-- The post-processing of a matched custom-property value
(src/app.py lines 410-414 and 443-448): expand `#abc`, keep `[:7]`. -/
def varAdjust (val : Str) : Str :=
  match val with
  | [_, a, b, c] => ['#', a, a, b, b, c, c]
  | _ => val.take 7

/-- Fuel-driven worker for `dedupFirst` (structural, so that the kernel
can evaluate it). -/
def dedupFirstAux : Nat → List Str → List Str
  | 0, _ => []
  | _ + 1, [] => []
  | fuel + 1, x :: xs => x :: dedupFirstAux fuel (xs.filter (fun y => y ≠ x))

/-- The keys of `collections.Counter`, i.e. the distinct elements in
first-occurrence order. -/
def dedupFirst (l : List Str) : List Str := dedupFirstAux l.length l

/-- One comparison step of `Counter(l).most_common(1)`: a later element
replaces the current best only with a strictly greater count, so ties keep
the earliest element. -/
def fmcStep (l : List Str) (acc : Option (Str × Nat)) (x : Str) : Option (Str × Nat) :=
  match acc with
  | none => some (x, l.count x)
  | some (y, n) => if n < l.count x then some (x, l.count x) else some (y, n)

/-- `Counter(l).most_common(1)[0]` (as an option, for the empty list):
the most frequent element with its count, earliest first occurrence on
ties. -/
def firstMostCommon (l : List Str) : Option (Str × Nat) :=
  (dedupFirst l).foldl (fmcStep l) none

/-- Inline CSS assembly (src/app.py lines 396-402): style blocks then
style attributes, newline-joined. -/
def inlineCss (soup : SoupInfo) : Str :=
  pyJoin ['\n'] (soup.styleBlocks ++ soup.styleAttrs)

/-- Stylesheet-skip domains (src/app.py line 424). -/
def skipDomains : List Str :=
  [("fonts.googleapis.com").toList, ("use.typekit.net").toList,
   ("cdnjs.cloudflare.com").toList, ("cdn.jsdelivr.net").toList]

/-- The external-stylesheet fetch loop (src/app.py lines 426-438):
empty hrefs and skip-domain hrefs are skipped without a request; every
other href costs one HTTP request (counted), contributing its text capped
at 500000 characters when the response is ok (`fetchCss` returns `some`),
and nothing on a failed request or error status (`none`).  `resolve` is
the `urljoin(base_url, ·)` closure.  Returns the fetched parts in order
and the number of requests issued. -/
def processStylesheets (resolve : Str → Str) (fetchCss : Str → Option Str) :
    List Str → List Str × Nat
  | [] => ([], 0)
  | href :: rest =>
    let acc := processStylesheets resolve fetchCss rest
    if href.isEmpty || skipDomains.any (fun d => listInfix d href) then acc
    else
      match fetchCss (resolve href) with
      | some txt => (txt.take 500000 :: acc.1, acc.2 + 1)
      | none => (acc.1, acc.2 + 1)

/-- Step 3 of `_extract_primary_color` (src/app.py lines 417-421): the
dominant inline color, when its count reaches 3. -/
def colorStep3 (inlineColors : List Str) : Option Str :=
  match firstMostCommon inlineColors with
  | some (top, cnt) => if 3 ≤ cnt then some top else none
  | none => none

/-- Step 4 of `_extract_primary_color` (src/app.py lines 423-455): fetch
external stylesheets, try the custom-property pattern there, then the
3x-weighted combined frequency count. -/
def colorStep4 (soup : SoupInfo) (resolve : Str → Str) (fetchCss : Str → Option Str)
    (inlineColors : List Str) : Str × Nat :=
  let fetched := processStylesheets resolve fetchCss soup.stylesheetHrefs
  let ecss := pyJoin ['\n'] fetched.1
  match varSearch ecss with
  | some val => (varAdjust val, fetched.2)
  | none =>
    let allColors := inlineColors ++ inlineColors ++ inlineColors ++ extractColors ecss
    match firstMostCommon allColors with
    | some (top, _) => ('#' :: top, fetched.2)
    | none => ([], fetched.2)

/-- Steps 2-4 of `_extract_primary_color` (src/app.py lines 379-455),
reached when the theme-color meta yields nothing.  Returns the color and
the number of external stylesheet requests issued. -/
def extractColorCss (soup : SoupInfo) (resolve : Str → Str)
    (fetchCss : Str → Option Str) : Str × Nat :=
  let icss := inlineCss soup
  match varSearch icss with
  | some val => (varAdjust val, 0)
  | none =>
    let inlineColors := extractColors icss
    match colorStep3 inlineColors with
    | some top => ('#' :: top, 0)
    | none => colorStep4 soup resolve fetchCss inlineColors

/-- `_extract_primary_color` (src/app.py lines 364-455), instrumented with
the count of external stylesheet requests. -/
def extract_primary_color (soup : SoupInfo) (resolve : Str → Str)
    (fetchCss : Str → Option Str) : Str × Nat :=
  if themeColorHit soup then (themeColorVal soup, 0)
  else extractColorCss soup resolve fetchCss

/-- Test whether a string has the `#RRGGBB` form: `#` followed by exactly
six hex digits. -/
def isRRGGBB (v : Str) : Bool :=
  match v with
  | '#' :: ds => decide (ds.length = 6) && ds.all isHexDig
  | _ => false

/-- Association-list lookup: Python `dict.get(key)` on the detected map. -/
def getK : List (Str × Str) → Str → Option Str
  | [], _ => none
  | (k0, v) :: rest, k => if k0 = k then some v else getK rest k

/-- Association-list assignment: Python `dict[key] = val` — replace in
place when the key exists, append at the end otherwise. -/
def setK : List (Str × Str) → Str → Str → List (Str × Str)
  | [], k, v => [(k, v)]
  | (k0, v0) :: rest, k, v =>
    if k0 = k then (k0, v) :: rest else (k0, v0) :: setK rest k v

/-- The gap-fill merge of a subpage's metadata into the accumulated map
(src/app.py lines 712-714): `if val and not detected.get(key):
detected[key] = val`, iterating the subpage map in insertion order. -/
def gapFillMerge (detected sub : List (Str × Str)) : List (Str × Str) :=
  sub.foldl (fun d kv =>
    if kv.2 ≠ [] ∧ pyFalsy (getK d kv.1) then setK d kv.1 kv.2 else d) detected

/-- The path component of a URL, as `urllib.parse.urlparse(url).path`
computes it for the absolute http(s) URLs this pipeline constructs. -/
def urlPath (u : Str) : Str :=
  match searchPos (fun s => match dropLit (("://").toList) s with
    | some r => some r
    | none => none) u with
  | some afterScheme =>
    (afterScheme.dropWhile (fun c => c ≠ '/')).takeWhile (fun c => c ≠ '?' && c ≠ '#')
  | none => u.takeWhile (fun c => c ≠ '?' && c ≠ '#')

/-- The bracketed subpage label (src/app.py line 716):
`urlparse(sub_url).path.strip('/').upper().replace('-', ' ')`. -/
def pathLabel (u : Str) : Str :=
  ((pyStripChar '/' (urlPath u)).map Char.toUpper).map (fun c => if c = '-' then ' ' else c)

/-- Lexicographic string order by code point, as Python `sorted` uses. -/
def strLe : Str → Str → Bool
  | [], _ => true
  | _ :: _, [] => false
  | a :: as, b :: bs => if a = b then strLe as bs else decide (a < b)

/-- Stable insertion of a string into a sorted list. -/
def insertSorted (x : Str) : List Str → List Str
  | [] => [x]
  | y :: ys => if strLe x y then x :: y :: ys else y :: insertSorted x ys

/-- Python `sorted` on a list of strings. -/
def pySorted (l : List Str) : List Str := l.foldr insertSorted []

/-- The fixed conventional subpage paths `_COMMON_SUBPATHS`
(src/app.py lines 271-275). -/
def commonSubpaths : List Str :=
  [("/about/").toList, ("/about-us/").toList, ("/group-dining/").toList,
   ("/private-dining/").toList, ("/private-events/").toList, ("/menu/").toList,
   ("/events/").toList, ("/the-cuisine/").toList, ("/the-concept/").toList,
   ("/chef/").toList]

/-- What `_fetch_page_text` hands back for one subpage URL: the cleaned,
whitespace-normalized text and the raw HTML (both empty on a failed fetch),
plus the parsed anchor list of the raw HTML for metadata detection. -/
structure SubPageData where
  text : Str
  raw : Str
  anchors : List Anchor
deriving DecidableEq

/-- The home page as the orchestrator sees it after fetch and parse:
the decoded raw HTML and its parsed anchor list (inputs to
`_detect_site_metadata`), the parsed facts for `_extract_primary_color`,
the cleaned main text (the soup-derived result of lines 694-701), the
post-redirect `scheme://netloc` base URL, the same-domain keyword subpage
URLs discovered from the anchors (lines 677-687, soup- and urljoin-derived,
abstracted), and the results of the soup-heavy logo/favicon extractors. -/
structure HomePage where
  html : Str
  anchors : List Anchor
  soup : SoupInfo
  mainText : Str
  baseUrl : Str
  discovered : List Str
  logoUrl : Str
  faviconUrl : Str

/-- Outcome of the home-page fetch (src/app.py lines 655-665), with the
failure classification of the four except clauses. -/
inductive HomeFetch where
  | timeout
  | connError
  | httpError (code : Nat)
  | otherError
  | success (page : HomePage)

/-- The environment of one `scrape_website` invocation: the home-fetch
outcome, the `urljoin` closure and HTTP oracle for external stylesheets,
and the `_fetch_page_text` oracle for subpages. -/
structure ScrapeEnv where
  home : HomeFetch
  resolveCss : Str → Str
  fetchCss : Str → Option Str
  subFetch : Str → SubPageData

/-- The `(ok, text, error, detected)` tuple `scrape_website` returns. -/
structure ScrapeResult where
  ok : Bool
  text : Str
  error : Str
  detected : List (Str × Str)
deriving DecidableEq

/-- Error message of the timeout branch (src/app.py line 659). -/
def msgTimeout : Str := ("Website took too long to respond. Please try again.").toList

/-- Error message of the connection-error branch (src/app.py line 661). -/
def msgConn : Str := ("Could not connect to website. Please check the URL.").toList

/-- Error message of the HTTP-error branch (src/app.py line 663). -/
def msgHttp (code : Nat) : Str :=
  ("Website returned error ").toList ++ (toString code).toList ++ (". Please verify the URL.").toList

/-- Error message of the generic-failure branch (src/app.py line 665). -/
def msgOther : Str := ("Could not fetch website. Please check the URL and try again.").toList

/-- Error message of the too-little-content branch (src/app.py line 726). -/
def msgTooLittle : Str :=
  ("Website had very little text content. Try a different page or enter copy manually.").toList

/-- The home page's detected map (src/app.py lines 670-673): composite
metadata, then `primary_color`, `logo_url`, `favicon_url` assigned on top. -/
def homeDetected (env : ScrapeEnv) (page : HomePage) : List (Str × Str) :=
  let d0 := detect_site_metadata page.html page.anchors
  let d1 := setK d0 (("primary_color").toList)
    (extract_primary_color page.soup env.resolveCss env.fetchCss).1
  let d2 := setK d1 (("logo_url").toList) page.logoUrl
  setK d2 (("favicon_url").toList) page.faviconUrl

/-- The subpage URLs actually fetched (src/app.py lines 677-692 and 706):
discovered keyword links united (as a set) with the conventional subpaths
on the base URL, sorted, first 10. -/
def subpageUrls (page : HomePage) : List Str :=
  (pySorted ((page.discovered ++ commonSubpaths.map (fun p => page.baseUrl ++ p)).eraseDups)).take 10

/-- The labeled text block of one subpage (src/app.py line 717). -/
def labelPart (url text : Str) : Str :=
  '[' :: pathLabel url ++ ']' :: '\n' :: text

/-- Processing of one subpage (src/app.py lines 707-717): fetch, gap-fill
merge its metadata when raw HTML came back, and append its labeled text
when the cleaned text is longer than 30 characters. -/
def subpageStep (subFetch : Str → SubPageData) (acc : List (Str × Str) × List Str)
    (url : Str) : List (Str × Str) × List Str :=
  let d := subFetch url
  let det := if d.raw ≠ [] then
      gapFillMerge acc.1 (detect_site_metadata d.raw d.anchors)
    else acc.1
  let parts := if d.text ≠ [] ∧ 30 < d.text.length then
      acc.2 ++ [labelPart url d.text]
    else acc.2
  (det, parts)

/-- The subpage loop (src/app.py lines 705-717): final detected map and
the collected subpage text parts, in processing order. -/
def scrapeParts (env : ScrapeEnv) (page : HomePage) : List (Str × Str) × List Str :=
  (subpageUrls page).foldl (subpageStep env.subFetch) (homeDetected env page, [])

/-- The assembled combined text (src/app.py lines 719-723): subpage parts
first, then the `[HOME PAGE]` block when the main text is nonempty, joined
with blank lines. -/
def scrapeCombined (env : ScrapeEnv) (page : HomePage) : Str :=
  pyJoin (("\n\n").toList)
    ((scrapeParts env page).2 ++
      (if page.mainText ≠ [] then [("[HOME PAGE]\n").toList ++ page.mainText] else []))

/-- `scrape_website` (src/app.py lines 639-729). -/
def scrape_website (env : ScrapeEnv) : ScrapeResult :=
  match env.home with
  | HomeFetch.timeout => ⟨false, [], msgTimeout, []⟩
  | HomeFetch.connError => ⟨false, [], msgConn, []⟩
  | HomeFetch.httpError code => ⟨false, [], msgHttp code, []⟩
  | HomeFetch.otherError => ⟨false, [], msgOther, []⟩
  | HomeFetch.success page =>
    let combined := scrapeCombined env page
    if combined.length < 50 then ⟨false, [], msgTooLittle, []⟩
    else ⟨true, combined.take 8000, [], (scrapeParts env page).1⟩

/-- The caller-side fallback-search block that follows a scrape
(src/app.py lines 2232-2241): if detected booking is OpenTable with a
falsy RID, call `_search_opentable_rid` and store its result; then, if
`resy_url` is falsy, call `_search_resy_url` and store its result.
`otResult`/`resyResult` are the values the searchers would return; the two
booleans report whether each searcher was invoked. -/
def caller_backfill (d : List (Str × Str)) (otResult resyResult : Str) :
    List (Str × Str) × Bool × Bool :=
  let callOT := decide (getK d (("booking").toList) = some (("OpenTable").toList)) &&
    pyFalsy (getK d (("opentable_rid").toList))
  let d1 := if callOT then setK d (("opentable_rid").toList) otResult else d
  let callResy := pyFalsy (getK d1 (("resy_url").toList))
  let d2 := if callResy then setK d1 (("resy_url").toList) resyResult else d1
  (d2, callOT, callResy)

/-- The behaviour claim C2 attributes to the orchestrator, stated in the
claim's own words for comparison with `scrape_website`: the fallback
searches are performed and their results incorporated before the result is
returned. -/
def scrape_website_claimed (env : ScrapeEnv) (otResult resyResult : Str) : ScrapeResult :=
  let r := scrape_website env
  { r with detected := (caller_backfill r.detected otResult resyResult).1 }

/-- The eighteen detected fields claim C1 lists. -/
def scrapeDetectedKeys : List Str :=
  [("primary_color").toList, ("logo_url").toList, ("favicon_url").toList,
   ("booking").toList, ("opentable_rid").toList, ("tripleseat_form_id").toList,
   ("resy_url").toList, ("mailing_list_url").toList, ("facebook_url").toList,
   ("instagram_url").toList, ("phone").toList, ("email_general").toList,
   ("email_events").toList, ("email_marketing").toList, ("email_press").toList,
   ("address").toList, ("google_maps_url").toList, ("order_online_url").toList]

/-- An empty subpage fetch result (failed or content-free fetch). -/
def emptySub : SubPageData := ⟨[], [], []⟩

/-- The fifteen keys of `_detect_site_metadata`'s result, in insertion
order. -/
def detectKeys : List Str :=
  [("booking").toList, ("opentable_rid").toList, ("tripleseat_form_id").toList,
   ("resy_url").toList, ("mailing_list_url").toList, ("facebook_url").toList,
   ("instagram_url").toList, ("phone").toList, ("email_general").toList,
   ("email_events").toList, ("email_marketing").toList, ("email_press").toList,
   ("address").toList, ("google_maps_url").toList, ("order_online_url").toList]

/-- A scrape environment whose home-page fetch times out. -/
def envTimeout : ScrapeEnv := ScrapeEnv.mk HomeFetch.timeout id (fun _ => none) (fun _ => emptySub)

/-- A successful scrape environment: empty home HTML, a 50-character main
text, no discovered subpages, all subpage fetches empty. -/
def envOK : ScrapeEnv := ScrapeEnv.mk (HomeFetch.success
  (HomePage.mk [] [] (SoupInfo.mk none [] [] []) (List.replicate 50 'a')
    (("https://x.com").toList) [] [] [])) id (fun _ => none) (fun _ => emptySub)

/-- A home page whose HTML carries an OpenTable widget marker but no RID. -/
def pageOT : HomePage := HomePage.mk (("<div>opentable.com/widget</div>").toList) []
  (SoupInfo.mk none [] [] []) (List.replicate 50 'a') (("https://x.com").toList) [] [] []

/-- The environment around `pageOT`. -/
def envOT : ScrapeEnv := ScrapeEnv.mk (HomeFetch.success pageOT) id (fun _ => none) (fun _ => emptySub)

/-- A home-detected map with an undetected booking and an already-found
general email. -/
def dHome3 : List (Str × Str) :=
  [(("booking").toList, []),
   (("email_general").toList, ("parc.info@starr-restaurants.com").toList)]

/-- A home page with 3000 characters of main text. -/
def page4 : HomePage := HomePage.mk [] [] (SoupInfo.mk none [] [] [])
  (List.replicate 3000 'h') (("https://x.com").toList) [] [] []

/-- A subpage fetch oracle delivering 7000 characters of text for the
`/about/` page and nothing elsewhere. -/
def sf4 : Str → SubPageData := fun u =>
  if u = (("https://x.com/about/").toList) then
    SubPageData.mk (List.replicate 7000 'a') [] []
  else emptySub

/-- An environment where the `/about/` subpage yields 7000 characters of
text and every other fetch is empty. -/
def env4 : ScrapeEnv := ScrapeEnv.mk (HomeFetch.success page4) id (fun _ => none) sf4

/-- Environment whose combined text has exactly 49 characters. -/
def env49 : ScrapeEnv := ScrapeEnv.mk (HomeFetch.success
  (HomePage.mk [] [] (SoupInfo.mk none [] [] []) (List.replicate 37 'a')
    (("https://x.com").toList) [] [] [])) id (fun _ => none) (fun _ => emptySub)

/-- Environment whose combined text has exactly 50 characters. -/
def env50 : ScrapeEnv := ScrapeEnv.mk (HomeFetch.success
  (HomePage.mk [] [] (SoupInfo.mk none [] [] []) (List.replicate 38 'a')
    (("https://x.com").toList) [] [] [])) id (fun _ => none) (fun _ => emptySub)

/-- A subpage fetch returning 30 characters of text and raw HTML carrying
a Starr email. -/
def sf10 : Str → SubPageData := fun _ =>
  SubPageData.mk (List.replicate 30 'a') (("mail p.info@starr-restaurants.com").toList) []

/-- An accumulator with an empty email_general field and one existing text
part. -/
def acc10 : List (Str × Str) × List Str :=
  ([(("email_general").toList, [])], [("[X]\nsome earlier part").toList])

/-- The HTML of C7's counterexample: the first Facebook href is the
excluded corporate handle, a second one is the restaurant's own. -/
def cHtml7 : Str :=
  ("<a href=\"https://www.facebook.com/starrrestaurants\"></a><a href=\"https://www.facebook.com/myplace\"></a>").toList

/-- An inline style block in which `#ff0000` appears three times, with an
external stylesheet linked. -/
def soup9 : SoupInfo := SoupInfo.mk none
  [("a\x7bcolor:#ff0000\x7d b\x7bcolor:#ff0000\x7d i\x7bcolor:#ff0000\x7d c\x7bcolor:#00ff00\x7d").toList]
  [] [("style.css").toList]

theorem gapFillMerge_cons (d : List (Str × Str)) (kv : Str × Str)
    (rest : List (Str × Str)) :
    gapFillMerge d (kv :: rest) =
      gapFillMerge (if kv.2 ≠ [] ∧ pyFalsy (getK d kv.1) = true then setK d kv.1 kv.2 else d)
        rest := rfl

theorem getK_setK_self (d : List (Str × Str)) (k v : Str) :
    getK (setK d k v) k = some v := by
  induction d with
  | nil => simp [setK, getK]
  | cons hd tl ih =>
    obtain ⟨k0, v0⟩ := hd
    by_cases h : k0 = k <;> simp [setK, getK, h, ih]

theorem getK_setK_ne (d : List (Str × Str)) (k k' v : Str) (h : k' ≠ k) :
    getK (setK d k v) k' = getK d k' := by
  have h2 : k ≠ k' := Ne.symm h
  induction d with
  | nil => simp [setK, getK, h2]
  | cons hd tl ih =>
    obtain ⟨k0, v0⟩ := hd
    by_cases h0 : k0 = k
    · subst h0
      simp [setK, getK, h2]
    · simp [setK, getK, h0, ih]

theorem isSome_getK_setK (d : List (Str × Str)) (k k' v : Str)
    (h : (getK d k').isSome) : (getK (setK d k v) k').isSome := by
  by_cases hk : k' = k
  · subst hk
    simp [getK_setK_self]
  · rw [getK_setK_ne d k k' v hk]
    exact h

theorem keys_setK_append (d : List (Str × Str)) (k v : Str)
    (h : k ∉ d.map Prod.fst) :
    (setK d k v).map Prod.fst = d.map Prod.fst ++ [k] := by
  induction d with
  | nil => simp [setK]
  | cons hd tl ih =>
    obtain ⟨k0, v0⟩ := hd
    simp only [List.map_cons, List.mem_cons] at h
    push_neg at h
    have h1 : k0 ≠ k := Ne.symm h.1
    simp [setK, h1, ih h.2]

theorem isSome_getK_of_mem_keys (d : List (Str × Str)) (k : Str)
    (h : k ∈ d.map Prod.fst) : (getK d k).isSome := by
  induction d with
  | nil => simp at h
  | cons hd tl ih =>
    obtain ⟨k0, v0⟩ := hd
    by_cases h0 : k0 = k
    · simp [getK, h0]
    · simp only [List.map_cons, List.mem_cons] at h
      rcases h with h | h
      · exact absurd h.symm h0
      · simp [getK, h0, ih h]

theorem gapFill_isSome (sub : List (Str × Str)) (d : List (Str × Str)) (k : Str)
    (h : (getK d k).isSome) : (getK (gapFillMerge d sub) k).isSome := by
  induction sub generalizing d with
  | nil => exact h
  | cons kv rest ih =>
    rw [gapFillMerge_cons]
    split
    · exact ih _ (isSome_getK_setK _ _ _ _ h)
    · exact ih _ h

theorem gapFill_preserve (sub : List (Str × Str)) (d : List (Str × Str)) (k v : Str)
    (h : getK d k = some v) (hv : v ≠ []) : getK (gapFillMerge d sub) k = some v := by
  induction sub generalizing d with
  | nil => exact h
  | cons kv rest ih =>
    rw [gapFillMerge_cons]
    by_cases hk : kv.1 = k
    · subst hk
      have hfal : pyFalsy (getK d kv.1) = false := by
        rw [h]
        simpa [pyFalsy] using hv
      rw [if_neg (by simp [hfal])]
      exact ih d h
    · split
      · refine ih _ ?_
        rw [getK_setK_ne _ _ _ _ (Ne.symm hk)]
        exact h
      · exact ih d h

theorem gapFill_not_mem (sub : List (Str × Str)) (d : List (Str × Str)) (k : Str)
    (h : k ∉ sub.map Prod.fst) : getK (gapFillMerge d sub) k = getK d k := by
  induction sub generalizing d with
  | nil => rfl
  | cons kv rest ih =>
    simp only [List.map_cons, List.mem_cons] at h
    push_neg at h
    rw [gapFillMerge_cons]
    split
    · rw [ih _ h.2]
      exact getK_setK_ne _ _ _ _ h.1
    · exact ih d h.2

theorem gapFill_get_eq (sub : List (Str × Str)) (d : List (Str × Str)) (k w : Str)
    (hnd : (sub.map Prod.fst).Nodup) (hk : getK sub k = some w) :
    getK (gapFillMerge d sub) k =
      if w ≠ [] ∧ pyFalsy (getK d k) = true then some w else getK d k := by
  induction sub generalizing d with
  | nil => simp [getK] at hk
  | cons kv rest ih =>
    obtain ⟨k0, v0⟩ := kv
    simp only [List.map_cons, List.nodup_cons] at hnd
    by_cases h0 : k0 = k
    · subst h0
      have hw : v0 = w := by simpa [getK] using hk
      subst hw
      rw [gapFillMerge_cons, gapFill_not_mem rest _ k0 hnd.1]
      split
      · exact getK_setK_self _ _ _
      · rfl
    · have hk' : getK rest k = some w := by simpa [getK, h0] using hk
      rw [gapFillMerge_cons]
      have step : getK (if v0 ≠ [] ∧ pyFalsy (getK d k0) = true then setK d k0 v0 else d) k
          = getK d k := by
        split
        · exact getK_setK_ne _ _ _ _ (Ne.symm h0)
        · rfl
      rw [ih (if v0 ≠ [] ∧ pyFalsy (getK d k0) = true then setK d k0 v0 else d) hnd.2 hk',
        step]

theorem subpageStep_fst (sf : Str → SubPageData) (acc : List (Str × Str) × List Str)
    (url : Str) :
    (subpageStep sf acc url).1 =
      if (sf url).raw ≠ [] then
        gapFillMerge acc.1 (detect_site_metadata (sf url).raw (sf url).anchors)
      else acc.1 := rfl

theorem subpageStep_snd (sf : Str → SubPageData) (acc : List (Str × Str) × List Str)
    (url : Str) :
    (subpageStep sf acc url).2 =
      if (sf url).text ≠ [] ∧ 30 < (sf url).text.length then
        acc.2 ++ [labelPart url (sf url).text]
      else acc.2 := rfl

theorem foldl_subpageStep_isSome (sf : Str → SubPageData) (urls : List Str)
    (acc : List (Str × Str) × List Str) (k : Str)
    (h : (getK acc.1 k).isSome) :
    (getK (urls.foldl (subpageStep sf) acc).1 k).isSome := by
  induction urls generalizing acc with
  | nil => exact h
  | cons u rest ih =>
    rw [List.foldl_cons]
    refine ih _ ?_
    rw [subpageStep_fst]
    split
    · exact gapFill_isSome _ _ _ h
    · exact h

theorem foldl_subpageStep_preserve (sf : Str → SubPageData) (urls : List Str)
    (acc : List (Str × Str) × List Str) (k v : Str)
    (h : getK acc.1 k = some v) (hv : v ≠ []) :
    getK (urls.foldl (subpageStep sf) acc).1 k = some v := by
  induction urls generalizing acc with
  | nil => exact h
  | cons u rest ih =>
    rw [List.foldl_cons]
    refine ih _ ?_
    rw [subpageStep_fst]
    split
    · exact gapFill_preserve _ _ _ _ h hv
    · exact h

theorem keys_detect (html : Str) (anchors : List Anchor) :
    (detect_site_metadata html anchors).map Prod.fst = detectKeys := rfl

theorem keys_homeDetected (env : ScrapeEnv) (page : HomePage) :
    (homeDetected env page).map Prod.fst =
      detectKeys ++ [("primary_color").toList, ("logo_url").toList, ("favicon_url").toList] := by
  unfold homeDetected
  rw [keys_setK_append, keys_setK_append, keys_setK_append, keys_detect]
  · simp
  · rw [keys_detect]
    decide
  · rw [keys_setK_append, keys_detect]
    · decide
    · rw [keys_detect]
      decide
  · rw [keys_setK_append, keys_setK_append, keys_detect]
    · decide
    · rw [keys_detect]
      decide
    · rw [keys_setK_append, keys_detect]
      · decide
      · rw [keys_detect]
        decide

theorem mem_dedupFirstAux (a : Str) :
    ∀ (fuel : Nat) (l : List Str), l.length ≤ fuel →
      (a ∈ dedupFirstAux fuel l ↔ a ∈ l) := by
  intro fuel
  induction fuel with
  | zero =>
    intro l hl
    have : l = [] := List.eq_nil_of_length_eq_zero (Nat.le_zero.mp hl)
    subst this
    simp [dedupFirstAux]
  | succ n ih =>
    intro l hl
    match l with
    | [] => simp [dedupFirstAux]
    | x :: xs =>
      have hlen : (xs.filter (fun y => y ≠ x)).length ≤ n :=
        Nat.le_trans (List.length_filter_le _ _) (Nat.lt_succ_iff.mp hl)
      simp only [dedupFirstAux, List.mem_cons, ih _ hlen, List.mem_filter,
        decide_eq_true_eq]
      constructor
      · rintro (h | ⟨h, _⟩)
        · exact Or.inl h
        · exact Or.inr h
      · rintro (h | h)
        · exact Or.inl h
        · by_cases hx : a = x
          · exact Or.inl hx
          · exact Or.inr ⟨h, hx⟩

theorem mem_dedupFirst (a : Str) (l : List Str) : a ∈ dedupFirst l ↔ a ∈ l :=
  mem_dedupFirstAux a l.length l (Nat.le_refl _)

theorem fmcStep_fold_max (l : List Str) (c : Str)
    (hmax : ∀ d ∈ l, d ≠ c → l.count d < l.count c) :
    ∀ (xs : List Str) (acc : Option (Str × Nat)),
      (∀ d ∈ xs, d ∈ l) →
      (c ∈ xs ∨ acc = some (c, l.count c)) →
      (acc = none ∨ ∃ y, y ∈ l ∧ acc = some (y, l.count y)) →
      xs.foldl (fmcStep l) acc = some (c, l.count c) := by
  intro xs
  induction xs with
  | nil =>
    intro acc _ hin _
    rcases hin with hin | hin
    · simp at hin
    · simpa using hin
  | cons x xs ih =>
    intro acc hsub hin hinv
    rw [List.foldl_cons]
    have hxl : x ∈ l := hsub x (List.mem_cons_self x xs)
    have hsub' : ∀ d ∈ xs, d ∈ l := fun d hd => hsub d (List.mem_cons_of_mem x hd)
    have hinv' : fmcStep l acc x = none ∨
        ∃ y, y ∈ l ∧ fmcStep l acc x = some (y, l.count y) := by
      rcases hinv with hinv | ⟨y, hy, hacc⟩
      · subst hinv
        exact Or.inr ⟨x, hxl, rfl⟩
      · subst hacc
        simp only [fmcStep]
        split
        · exact Or.inr ⟨x, hxl, rfl⟩
        · exact Or.inr ⟨y, hy, rfl⟩
    refine ih _ hsub' ?_ hinv'
    by_cases hx : x = c
    · subst hx
      rcases hinv with hinv | ⟨y, hy, hacc⟩
      · subst hinv
        exact Or.inr rfl
      · subst hacc
        by_cases hyc : y = x
        · subst hyc
          simp [fmcStep]
        · have hlt : l.count y < l.count x := hmax y hy hyc
          simp only [fmcStep]
          rw [if_pos hlt]
          exact Or.inr rfl
    · rcases hin with hin | hin
      · rcases List.mem_cons.mp hin with h | h
        · exact absurd h.symm hx
        · exact Or.inl h
      · rw [hin]
        have hlt : l.count x < l.count c := hmax x hxl hx
        simp only [fmcStep]
        rw [if_neg (by omega)]
        exact Or.inr rfl

theorem fmc_strict_max (l : List Str) (c : Str) (hc : c ∈ l)
    (hmax : ∀ d ∈ l, d ≠ c → l.count d < l.count c) :
    firstMostCommon l = some (c, l.count c) := by
  unfold firstMostCommon
  refine fmcStep_fold_max l c hmax (dedupFirst l) none
    (fun d hd => (mem_dedupFirst d l).mp hd) ?_ (Or.inl rfl)
  exact Or.inl ((mem_dedupFirst c l).mpr hc)

/-- Claim C1 (as stated) is false: the timeout invocation returns ok=false
with an empty detected map, so the `booking` field is absent rather than
bound to the empty string. -/
theorem C1_counterexample :
    (scrape_website envTimeout).ok = false ∧
    getK (scrape_website envTimeout).detected (("booking").toList) = none := by decide

/-- Claim C1, amended: on every invocation that returns ok=true the
detected map binds every one of the eighteen listed fields (to strings,
empty by default); every invocation that returns ok=false carries an empty
detected map instead. -/
theorem C1_amended (env : ScrapeEnv) :
    ((scrape_website env).ok = true →
      ∀ k ∈ scrapeDetectedKeys, ∃ v, getK (scrape_website env).detected k = some v) ∧
    ((scrape_website env).ok = false → (scrape_website env).detected = []) := by
  obtain ⟨home, rc, fc, sf⟩ := env
  cases home with
  | timeout => exact ⟨fun h => by simp [scrape_website] at h, fun _ => rfl⟩
  | connError => exact ⟨fun h => by simp [scrape_website] at h, fun _ => rfl⟩
  | httpError code => exact ⟨fun h => by simp [scrape_website] at h, fun _ => rfl⟩
  | otherError => exact ⟨fun h => by simp [scrape_website] at h, fun _ => rfl⟩
  | success page =>
    by_cases hlen :
      (scrapeCombined ⟨HomeFetch.success page, rc, fc, sf⟩ page).length < 50
    · constructor
      · intro hok
        exfalso
        simp [scrape_website, hlen] at hok
      · intro _
        simp [scrape_website, hlen]
    · constructor
      · intro _ k hk
        have hdet : (scrape_website ⟨HomeFetch.success page, rc, fc, sf⟩).detected =
            (scrapeParts ⟨HomeFetch.success page, rc, fc, sf⟩ page).1 := by
          simp [scrape_website, hlen]
        rw [hdet]
        have hmem : k ∈ (homeDetected ⟨HomeFetch.success page, rc, fc, sf⟩ page).map Prod.fst := by
          rw [keys_homeDetected]
          have hall : ∀ j ∈ scrapeDetectedKeys,
              j ∈ detectKeys ++ [("primary_color").toList, ("logo_url").toList,
                ("favicon_url").toList] := by decide
          exact hall k hk
        have h1 := isSome_getK_of_mem_keys _ k hmem
        have h2 : (getK (scrapeParts ⟨HomeFetch.success page, rc, fc, sf⟩ page).1 k).isSome := by
          unfold scrapeParts
          exact foldl_subpageStep_isSome _ _ _ _ h1
        exact Option.isSome_iff_exists.mp h2
      · intro hok
        exfalso
        simp [scrape_website, hlen] at hok

/-- Witness for C1_amended: on a concrete successful scrape, the `booking`
field is present. -/
theorem C1_amended_witness :
    (scrape_website envOK).ok = true ∧
    (∃ v, getK (scrape_website envOK).detected (("booking").toList) = some v) :=
  ⟨by decide, (C1_amended envOK).1 (by decide) (("booking").toList) (by decide)⟩

/-- Claim C2 (as stated) is false: on a concrete scrape that finishes with
booking "OpenTable" and an empty RID, `scrape_website` returns the empty
RID untouched, whereas the behaviour the claim describes (embodied by
`scrape_website_claimed`, which runs the fallback block before returning)
would return the searcher's result. -/
theorem C2_counterexample :
    getK (scrape_website envOT).detected (("booking").toList) = some (("OpenTable").toList) ∧
    getK (scrape_website envOT).detected (("opentable_rid").toList) = some [] ∧
    getK (scrape_website_claimed envOT (("12345").toList) []).detected
      (("opentable_rid").toList) = some (("12345").toList) := by decide

/-- Claim C2, amended: the fallback searchers are invoked not by
`scrape_website` but by its callers after it returns (src/app.py
lines 2232-2241): there, whenever detected booking is "OpenTable" with a
falsy RID the OpenTable searcher is invoked and its result stored, and
whenever `resy_url` is falsy the Resy searcher is invoked and its result
stored. -/
theorem C2_amended (d : List (Str × Str)) (otResult resyResult : Str)
    (hb : getK d (("booking").toList) = some (("OpenTable").toList))
    (hr : pyFalsy (getK d (("opentable_rid").toList)) = true)
    (hy : pyFalsy (getK d (("resy_url").toList)) = true) :
    (caller_backfill d otResult resyResult).2.1 = true ∧
    (caller_backfill d otResult resyResult).2.2 = true ∧
    getK (caller_backfill d otResult resyResult).1 (("opentable_rid").toList) = some otResult ∧
    getK (caller_backfill d otResult resyResult).1 (("resy_url").toList) = some resyResult := by
  have hco : (decide (getK d (("booking").toList) = some (("OpenTable").toList)) &&
      pyFalsy (getK d (("opentable_rid").toList))) = true := by
    rw [hb, hr]
    simp
  have h1 : getK (setK d (("opentable_rid").toList) otResult) (("resy_url").toList)
      = getK d (("resy_url").toList) := getK_setK_ne _ _ _ _ (by decide)
  have h2 : getK (setK (setK d (("opentable_rid").toList) otResult)
      (("resy_url").toList) resyResult) (("opentable_rid").toList) = some otResult := by
    rw [getK_setK_ne _ _ _ _ (by decide)]
    exact getK_setK_self _ _ _
  simp only [caller_backfill, hco, if_true, h1, hy, getK_setK_self]
  exact ⟨trivial, trivial, h2, trivial⟩

/-- Witness for C2_amended at a concrete detected map. -/
theorem C2_amended_witness :
    (caller_backfill [(("booking").toList, ("OpenTable").toList),
        (("opentable_rid").toList, []), (("resy_url").toList, [])]
      (("777").toList) (("https://resy.com/cities/ny/x").toList)).2.1 = true ∧
    getK (caller_backfill [(("booking").toList, ("OpenTable").toList),
        (("opentable_rid").toList, []), (("resy_url").toList, [])]
      (("777").toList) (("https://resy.com/cities/ny/x").toList)).1
      (("opentable_rid").toList) = some (("777").toList) := by
  have h := C2_amended [(("booking").toList, ("OpenTable").toList),
      (("opentable_rid").toList, []), (("resy_url").toList, [])]
    (("777").toList) (("https://resy.com/cities/ny/x").toList)
    (by decide) (by decide) (by decide)
  exact ⟨h.1, h.2.2.1⟩

/-- Claim C3: the gap-fill merge adopts a subpage's extracted value for a
field exactly when that value is non-empty and the field is still falsy;
and a non-empty value already present is preserved by the whole subpage
loop, whatever later subpages contain. -/
theorem C3 (d : List (Str × Str)) (html : Str) (anchors : List Anchor) (k w : Str)
    (hk : getK (detect_site_metadata html anchors) k = some w) :
    getK (gapFillMerge d (detect_site_metadata html anchors)) k =
      (if w ≠ [] ∧ pyFalsy (getK d k) = true then some w else getK d k) ∧
    ∀ v, getK d k = some v → v ≠ [] →
      ∀ (sf : Str → SubPageData) (urls : List Str) (parts : List Str),
        getK ((urls.foldl (subpageStep sf) (d, parts)).1) k = some v := by
  constructor
  · refine gapFill_get_eq _ _ _ _ ?_ hk
    rw [keys_detect]
    decide
  · intro v hv hne sf urls parts
    exact foldl_subpageStep_preserve sf urls (d, parts) k v hv hne

/-- Witness for C3: a subpage with Resy markers gap-fills booking to
"Resy", while a subpage with a different `.info@` address does not
overwrite the already-set `email_general`. -/
theorem C3_witness :
    getK (gapFillMerge dHome3 (detect_site_metadata (("book via widgets.resy.com now").toList) []))
      (("booking").toList) = some (("Resy").toList) ∧
    getK (gapFillMerge dHome3 (detect_site_metadata (("mail x.info@starr-restaurants.com").toList) []))
      (("email_general").toList) = some (("parc.info@starr-restaurants.com").toList) := by
  constructor
  · have h := (C3 dHome3 (("book via widgets.resy.com now").toList) []
      (("booking").toList) (("Resy").toList) (by decide)).1
    rw [h]
    decide
  · have h := (C3 dHome3 (("mail x.info@starr-restaurants.com").toList) []
      (("email_general").toList) (("x.info@starr-restaurants.com").toList) (by decide)).1
    rw [h]
    decide

theorem scrape_success_branch (env : ScrapeEnv) (page : HomePage)
    (h : env.home = HomeFetch.success page) :
    scrape_website env =
      if (scrapeCombined env page).length < 50 then ⟨false, [], msgTooLittle, []⟩
      else ⟨true, (scrapeCombined env page).take 8000, [], (scrapeParts env page).1⟩ := by
  obtain ⟨home, rc, fc, sf⟩ := env
  cases home with
  | timeout => exact HomeFetch.noConfusion h
  | connError => exact HomeFetch.noConfusion h
  | httpError code => exact HomeFetch.noConfusion h
  | otherError => exact HomeFetch.noConfusion h
  | success p =>
    have hp : p = page := by injection h
    subst hp
    rfl

/-- Claim C4: when the scrape succeeds, its text is the assembled combined
corpus truncated to 8000 characters — truncation happening only after full
assembly — and hence is never longer than 8000 characters. -/
theorem C4 (env : ScrapeEnv) (page : HomePage) (h : env.home = HomeFetch.success page)
    (hok : (scrape_website env).ok = true) :
    (scrape_website env).text = (scrapeCombined env page).take 8000 ∧
    (scrape_website env).text.length ≤ 8000 := by
  obtain ⟨home, rc, fc, sf⟩ := env
  cases home with
  | timeout => exact HomeFetch.noConfusion h
  | connError => exact HomeFetch.noConfusion h
  | httpError code => exact HomeFetch.noConfusion h
  | otherError => exact HomeFetch.noConfusion h
  | success p =>
    have hp : p = page := by injection h
    subst hp
    by_cases hlen : (scrapeCombined ⟨HomeFetch.success p, rc, fc, sf⟩ p).length < 50
    · exfalso
      simp [scrape_website, hlen] at hok
    · have ht : (scrape_website ⟨HomeFetch.success p, rc, fc, sf⟩).text
          = (scrapeCombined ⟨HomeFetch.success p, rc, fc, sf⟩ p).take 8000 := by
        simp [scrape_website, hlen]
      refine ⟨ht, ?_⟩
      rw [ht, List.length_take]
      exact Nat.min_le_left _ _

theorem subpageStep_of_empty (sf : Str → SubPageData) (acc : List (Str × Str) × List Str)
    (url : Str) (h : sf url = emptySub) : subpageStep sf acc url = acc := by
  unfold subpageStep
  rw [h]
  simp [emptySub]

theorem sf4_about :
    sf4 (("https://x.com/about/").toList) = SubPageData.mk (List.replicate 7000 'a') [] [] := by
  unfold sf4
  rw [if_pos rfl]

theorem subpageStep_sf4_about (acc : List (Str × Str) × List Str) :
    subpageStep sf4 acc (("https://x.com/about/").toList)
      = (acc.1, acc.2 ++ [labelPart (("https://x.com/about/").toList) (List.replicate 7000 'a')]) := by
  have h2 : 30 < (List.replicate 7000 'a' : Str).length := by
    rw [List.length_replicate]
    norm_num
  have h1 : (List.replicate 7000 'a' : Str) ≠ [] := by
    intro h
    rw [h] at h2
    exact absurd h2 (by decide)
  have hf := subpageStep_fst sf4 acc (("https://x.com/about/").toList)
  have hsn := subpageStep_snd sf4 acc (("https://x.com/about/").toList)
  rw [sf4_about] at hf hsn
  refine Eq.trans Prod.mk.eta.symm ?_
  rw [hf, hsn, if_neg (fun hc => hc rfl), if_pos ⟨h1, h2⟩]

theorem scrapeParts_env4 :
    (scrapeParts env4 page4).2
      = [labelPart (("https://x.com/about/").toList) (List.replicate 7000 'a')] := by
  unfold scrapeParts
  have hsf : env4.subFetch = sf4 := rfl
  have hurls : subpageUrls page4 =
      [("https://x.com/about-us/").toList, ("https://x.com/about/").toList,
       ("https://x.com/chef/").toList, ("https://x.com/events/").toList,
       ("https://x.com/group-dining/").toList, ("https://x.com/menu/").toList,
       ("https://x.com/private-dining/").toList, ("https://x.com/private-events/").toList,
       ("https://x.com/the-concept/").toList, ("https://x.com/the-cuisine/").toList] := by
    decide
  rw [hsf, hurls]
  rw [List.foldl_cons, subpageStep_of_empty _ _ _ (by decide)]
  rw [List.foldl_cons, subpageStep_sf4_about]
  rw [List.foldl_cons, subpageStep_of_empty _ _ _ (by decide)]
  rw [List.foldl_cons, subpageStep_of_empty _ _ _ (by decide)]
  rw [List.foldl_cons, subpageStep_of_empty _ _ _ (by decide)]
  rw [List.foldl_cons, subpageStep_of_empty _ _ _ (by decide)]
  rw [List.foldl_cons, subpageStep_of_empty _ _ _ (by decide)]
  rw [List.foldl_cons, subpageStep_of_empty _ _ _ (by decide)]
  rw [List.foldl_cons, subpageStep_of_empty _ _ _ (by decide)]
  rw [List.foldl_cons, subpageStep_of_empty _ _ _ (by decide)]
  rw [List.foldl_nil]
  rfl

theorem scrapeCombined_env4 :
    scrapeCombined env4 page4
      = labelPart (("https://x.com/about/").toList) (List.replicate 7000 'a')
          ++ ("\n\n").toList
          ++ (("[HOME PAGE]\n").toList ++ List.replicate 3000 'h') := by
  unfold scrapeCombined
  rw [scrapeParts_env4]
  have hmain : page4.mainText = List.replicate 3000 'h' := rfl
  rw [hmain]
  have hne : (List.replicate 3000 'h' : Str) ≠ [] := by
    intro h
    have h0 := congrArg List.length h
    rw [List.length_replicate] at h0
    exact absurd h0 (by decide)
  rw [if_pos hne]
  rfl

theorem labelPart_env4_length :
    (labelPart (("https://x.com/about/").toList) (List.replicate 7000 'a')).length = 7008 := by
  unfold labelPart
  have hlab : pathLabel (("https://x.com/about/").toList) = ("ABOUT").toList := by decide
  rw [hlab]
  simp only [List.length_cons, List.length_append, List.length_replicate]
  decide

theorem scrapeCombined_env4_length : (scrapeCombined env4 page4).length = 10022 := by
  rw [scrapeCombined_env4]
  simp only [List.length_append, labelPart_env4_length, List.length_replicate]
  decide

/-- Witness for C4: with one 7000-character subpage and a 3000-character
home page, the assembled corpus is 10022 characters, the returned text is
truncated to at most 8000, and still contains the entire labeled subpage
block as a prefix (subpage-first ordering). -/
theorem C4_witness :
    (scrape_website env4).text.length ≤ 8000 ∧
    List.IsPrefix (labelPart (("https://x.com/about/").toList) (List.replicate 7000 'a'))
      (scrape_website env4).text ∧
    (scrapeCombined env4 page4).length = 10022 := by
  have hok : (scrape_website env4).ok = true := by
    have hnot : ¬ (scrapeCombined env4 page4).length < 50 := by
      rw [scrapeCombined_env4_length]
      norm_num
    rw [scrape_success_branch env4 page4 rfl, if_neg hnot]
  have hc4 := C4 env4 page4 rfl hok
  refine ⟨hc4.2, ?_, scrapeCombined_env4_length⟩
  rw [hc4.1, scrapeCombined_env4]
  rw [List.append_assoc]
  rw [List.take_append_eq_append_take]
  rw [List.take_of_length_le (by rw [labelPart_env4_length]; norm_num)]
  exact ⟨_, rfl⟩

/-- Claim C5: given a successful home-page fetch, the scrape returns
ok=false with the too-little-content error exactly when the assembled
combined text is under 50 characters; otherwise it returns ok=true, an
empty error, and the truncated text. -/
theorem C5 (env : ScrapeEnv) (page : HomePage) (h : env.home = HomeFetch.success page) :
    ((scrapeCombined env page).length < 50 →
      scrape_website env = ⟨false, [], msgTooLittle, []⟩) ∧
    (50 ≤ (scrapeCombined env page).length →
      (scrape_website env).ok = true ∧
      (scrape_website env).error = [] ∧
      (scrape_website env).text = (scrapeCombined env page).take 8000) := by
  obtain ⟨home, rc, fc, sf⟩ := env
  cases home with
  | timeout => exact HomeFetch.noConfusion h
  | connError => exact HomeFetch.noConfusion h
  | httpError code => exact HomeFetch.noConfusion h
  | otherError => exact HomeFetch.noConfusion h
  | success p =>
    have hp : p = page := by injection h
    subst hp
    constructor
    · intro hlen
      simp [scrape_website, hlen]
    · intro hlen
      have hnot : ¬ (scrapeCombined ⟨HomeFetch.success p, rc, fc, sf⟩ p).length < 50 :=
        Nat.not_lt.mpr hlen
      refine ⟨?_, ?_, ?_⟩ <;> simp [scrape_website, hnot]

/-- Witness for C5 at the 49/50 boundary. -/
theorem C5_witness :
    (scrape_website env49).ok = false ∧ (scrape_website env49).error = msgTooLittle ∧
    (scrape_website env50).ok = true ∧ (scrape_website env50).error = [] := by
  have h49 := (C5 env49 _ rfl).1 (by decide)
  have h50 := (C5 env50 _ rfl).2 (by decide)
  exact ⟨by rw [h49], by rw [h49], h50.1, h50.2.1⟩

/-- Claim C10: a fetched subpage whose cleaned text has 30 characters or
fewer contributes no text block; its metadata is still gap-fill merged
whenever raw HTML came back; and a text strictly longer than 30 characters
is appended with its bracketed label. -/
theorem C10 (sf : Str → SubPageData) (acc : List (Str × Str) × List Str) (url : Str) :
    ((sf url).text.length ≤ 30 → (subpageStep sf acc url).2 = acc.2) ∧
    (subpageStep sf acc url).1 =
      (if (sf url).raw ≠ [] then
        gapFillMerge acc.1 (detect_site_metadata (sf url).raw (sf url).anchors)
      else acc.1) ∧
    (30 < (sf url).text.length →
      (subpageStep sf acc url).2 = acc.2 ++ [labelPart url (sf url).text]) := by
  refine ⟨?_, subpageStep_fst sf acc url, ?_⟩
  · intro hle
    rw [subpageStep_snd]
    exact if_neg (fun hcon => absurd hcon.2 (Nat.not_lt.mpr hle))
  · intro hgt
    rw [subpageStep_snd]
    refine if_pos ⟨?_, hgt⟩
    intro he
    rw [he] at hgt
    exact absurd hgt (by decide)

/-- Witness for C10: the 30-character subpage adds no text part, yet its
email still gap-fills into the detected map. -/
theorem C10_witness :
    (subpageStep sf10 acc10 (("https://x.com/menu/").toList)).2 = acc10.2 ∧
    getK (subpageStep sf10 acc10 (("https://x.com/menu/").toList)).1 (("email_general").toList)
      = some (("p.info@starr-restaurants.com").toList) := by
  refine ⟨(C10 sf10 acc10 (("https://x.com/menu/").toList)).1 (by decide), ?_⟩
  rw [(C10 sf10 acc10 (("https://x.com/menu/").toList)).2.1]
  decide

/-- Claim C6 (as stated) is false: a well-formed 3-digit meta theme-color
`#abc` is returned as `#abc`, which is not the 6-hex-digit `#RRGGBB` form
(the source keeps `val[:7]`, which only truncates, never expands). -/
theorem C6_counterexample :
    extract_primary_color (SoupInfo.mk (some (("#abc").toList)) [] [] []) id (fun _ => none)
      = ((("#abc").toList), 0) ∧
    isRRGGBB (("#abc").toList) = false := by decide

/-- Claim C6, amended: for a well-formed 3-8 digit meta theme-color the
extractor returns the stripped value truncated to its first 7 characters —
the `#RRGGBB` form whenever the value has at least 6 digits — preferring it
unconditionally over every CSS-derived signal (the CSS fields and fetch
oracle are arbitrary, and no external stylesheet request is issued). -/
theorem C6_amended (soup : SoupInfo) (resolve : Str → Str) (fetchCss : Str → Option Str)
    (content : Str) (h1 : soup.themeColorContent = some content)
    (h2 : hexColorFull (pyStrip content) = true) :
    extract_primary_color soup resolve fetchCss = ((pyStrip content).take 7, 0) ∧
    (7 ≤ (pyStrip content).length → isRRGGBB ((pyStrip content).take 7) = true) := by
  have hne : content ≠ [] := by
    intro he
    rw [he] at h2
    exact absurd h2 (by decide)
  have hhit : themeColorHit soup = true := by
    unfold themeColorHit
    rw [h1]
    simp only [List.isEmpty_iff, Bool.not_eq_true]
    rw [h2]
    simp [hne]
  constructor
  · unfold extract_primary_color
    rw [hhit]
    unfold themeColorVal
    rw [h1]
    rfl
  · intro h7
    unfold hexColorFull at h2
    split at h2
    case h_1 v ds heq =>
      rw [heq] at h7 ⊢
      simp only [List.length_cons] at h7
      have h6 : 6 ≤ ds.length := by omega
      show isRRGGBB ('#' :: ds.take 6) = true
      unfold isRRGGBB
      simp only [Bool.and_eq_true, decide_eq_true_eq] at h2 ⊢
      refine ⟨by rw [List.length_take]; omega, ?_⟩
      rw [List.all_eq_true]
      intro x hx
      exact List.all_eq_true.mp h2.1.1 x (List.take_subset 6 ds hx)
    case h_2 => exact absurd h2 (by simp)

/-- Witness for C6_amended at an 8-digit theme-color value. -/
theorem C6_amended_witness :
    extract_primary_color (SoupInfo.mk (some (("#a1b2c3d4").toList)) [] [] []) id (fun _ => none)
      = ((("#a1b2c3").toList), 0) ∧
    isRRGGBB (("#a1b2c3").toList) = true := by
  have h := C6_amended (SoupInfo.mk (some (("#a1b2c3d4").toList)) [] [] []) id (fun _ => none)
    (("#a1b2c3d4").toList) rfl (by decide)
  refine ⟨?_, by decide⟩
  rw [h.1]
  decide

/-- Claim C7 (as stated) is false: the page contains the non-corporate
handle `myplace`, yet the facebook_url field stays empty, because only the
first regex match is considered and it is the excluded corporate handle. -/
theorem C7_counterexample :
    listInfix (("href=\"https://www.facebook.com/myplace\"").toList) cHtml7 = true ∧
    detect_facebook_url cHtml7 = [] := by decide

/-- Claim C7, amended: only the first Facebook (resp. Instagram) href
match is considered; if its slug — trailing slashes stripped, lowercased —
is in the excluded corporate set the field stays empty (even when other
handles appear later in the HTML), and otherwise the field is the
canonical profile URL built from that slug. -/
theorem C7_amended (html : Str) :
    (∀ slug, searchPos (socialAt (("facebook.com/").toList)) html = some slug →
      detect_facebook_url html =
        (if lowerStr (pyRstrip '/' slug) ∈ fbExcluded then []
         else ("https://www.facebook.com/").toList ++ pyRstrip '/' slug)) ∧
    (searchPos (socialAt (("facebook.com/").toList)) html = none →
      detect_facebook_url html = []) ∧
    (∀ slug, searchPos (socialAt (("instagram.com/").toList)) html = some slug →
      detect_instagram_url html =
        (if lowerStr (pyRstrip '/' slug) ∈ igExcluded then []
         else ("https://www.instagram.com/").toList ++ pyRstrip '/' slug)) := by
  refine ⟨?_, ?_, ?_⟩
  · intro slug h
    unfold detect_facebook_url
    rw [h]
  · intro h
    unfold detect_facebook_url
    rw [h]
  · intro slug h
    unfold detect_instagram_url
    rw [h]

/-- Witness for C7_amended: a non-excluded first handle is kept. -/
theorem C7_amended_witness :
    detect_facebook_url (("<a href=\"https://www.facebook.com/myplace\"></a>").toList)
      = (("https://www.facebook.com/myplace").toList) := by
  have h := (C7_amended (("<a href=\"https://www.facebook.com/myplace\"></a>").toList)).1
    (("myplace").toList) (by decide)
  rw [h]
  decide

/-- Claim C8: for a page whose first `tel:` href captures `t`, the phone
extractor formats the adjusted digit string (strip to digits, drop a
leading 1 from an 11-digit result) exactly when 10 digits remain; with no
aria/title or PHONE-label fallback present, any other digit count leaves
the phone field empty. -/
theorem telStage_eq (html t : Str) (h : telSearch html = some t) :
    telStage html = telPhone t := by
  unfold telStage
  rw [h]

theorem ariaStage_none (html : Str) (h : ariaSearch html = none) :
    ariaStage html = [] := by
  unfold ariaStage
  rw [h]

theorem phoneLabelStage_none (html : Str) (h : phoneLabelSearch html = none) :
    phoneLabelStage html = [] := by
  unfold phoneLabelStage
  rw [h]

theorem C8 (html t : Str) (h : telSearch html = some t) :
    ((telAdjust t).length = 10 → detectPhone html = formatPhone (telAdjust t)) ∧
    ((telAdjust t).length ≠ 10 → ariaSearch html = none → phoneLabelSearch html = none →
      detectPhone html = []) := by
  have hts := telStage_eq html t h
  constructor
  · intro h10
    have hp : telPhone t = formatPhone (telAdjust t) := by
      unfold telPhone
      rw [if_pos h10]
    have hne : formatPhone (telAdjust t) ≠ [] := by
      unfold formatPhone
      simp
    simp only [detectPhone]
    rw [hts, hp, if_pos hne]
  · intro h10 ha hl
    have hp : telPhone t = [] := by
      unfold telPhone
      rw [if_neg h10]
    simp only [detectPhone]
    rw [hts, hp, ariaStage_none html ha, phoneLabelStage_none html hl]
    simp

/-- Witness for C8: `tel:+1-215-555-0100` yields `(215) 555-0100`, while a
9-digit href and an 11-digit href not starting with 1 yield an empty
phone. -/
theorem C8_witness :
    detectPhone (("<a href=\"tel:+1-215-555-0100\">x</a>").toList) = (("(215) 555-0100").toList) ∧
    detectPhone (("<a href=\"tel:215-555-010\">x</a>").toList) = [] ∧
    detectPhone (("<a href=\"tel:22155501000\">x</a>").toList) = [] := by
  refine ⟨?_, ?_, ?_⟩
  · have h := (C8 (("<a href=\"tel:+1-215-555-0100\">x</a>").toList)
      (("+1-215-555-0100").toList) (by decide)).1 (by decide)
    rw [h]
    decide
  · exact (C8 (("<a href=\"tel:215-555-010\">x</a>").toList)
      (("215-555-010").toList) (by decide)).2 (by decide) (by decide) (by decide)
  · exact (C8 (("<a href=\"tel:22155501000\">x</a>").toList)
      (("22155501000").toList) (by decide)).2 (by decide) (by decide) (by decide)

/-- Claim C9: with no valid meta theme-color and no matching inline custom
property, an inline-CSS color that is the strict most frequent with count
at least 3 is returned immediately, and the external stylesheet fetch
count is zero. -/
theorem C9 (soup : SoupInfo) (resolve : Str → Str) (fetchCss : Str → Option Str) (c : Str)
    (hmeta : themeColorHit soup = false)
    (hvar : varSearch (inlineCss soup) = none)
    (hmem : c ∈ extractColors (inlineCss soup))
    (h3 : 3 ≤ (extractColors (inlineCss soup)).count c)
    (hmax : ∀ d ∈ extractColors (inlineCss soup), d ≠ c →
      (extractColors (inlineCss soup)).count d < (extractColors (inlineCss soup)).count c) :
    extract_primary_color soup resolve fetchCss = ('#' :: c, 0) := by
  have h1 : colorStep3 (extractColors (inlineCss soup)) = some c := by
    unfold colorStep3
    rw [fmc_strict_max (extractColors (inlineCss soup)) c hmem hmax]
    show (if 3 ≤ (extractColors (inlineCss soup)).count c then
        some c else none) = some c
    rw [if_pos h3]
  unfold extract_primary_color
  rw [hmeta]
  simp only [Bool.false_eq_true, if_false]
  simp only [extractColorCss]
  rw [hvar]
  show (match colorStep3 (extractColors (inlineCss soup)) with
    | some top => ('#' :: top, 0)
    | none => colorStep4 soup resolve fetchCss (extractColors (inlineCss soup))) = ('#' :: c, 0)
  rw [h1]

/-- Witness for C9: the dominant inline color is returned with zero
external stylesheet fetches even though a stylesheet link is present. -/
theorem C9_witness :
    extract_primary_color soup9 id (fun _ => none) = ((("#ff0000").toList), 0) := by
  have h := C9 soup9 id (fun _ => none) (("ff0000").toList) (by decide) (by decide)
    (by decide) (by decide) (by decide)
  rw [h]
  decide
